import Mathlib

/-!
Verification of the OHLC aggregation and persistence core of
`src/getprices.js` (a multi-timeframe candle aggregator fed by exchange
tick streams).

Shallow embedding conventions:
* prices are rationals (`ℚ`); `parseFloat(price.toFixed(2))` becomes
  `round2` (round half up to two decimal places);
* instants are integer milliseconds since the epoch (`Int`); the code
  stores a bucket start as its ISO-8601 UTC string, and `toISOString` is
  injective on millisecond values, so comparing the strings is comparing
  the numbers;
* the mutable per-(asset, timeframe) entry of the `timeframes` map, its
  `isSaving` flag and the contents of its `.jsonl` file are gathered in a
  `Frame`; the `appendFile` outcome of each save is an explicit boolean
  oracle (`ok`), `true` when the append succeeds;
* `updateFrame` is the body of `updateOhlc`'s per-timeframe loop for one
  frame, returning the new frame together with the list of candles handed
  to `finalizeOhlc`/`saveOhlcData` during the step.
-/

namespace GetPrices

/-- One OHLC candle as built by `updateOhlc` (src/getprices.js lines
150-156 and 161-167): the bucket-start instant plus the four price
fields.  `open_` stands for the JS field `open`. -/
structure Candle where
  timestamp : Int
  open_ : ℚ
  high : ℚ
  low : ℚ
  close : ℚ
  deriving DecidableEq, Repr

/-- The state held for one (asset, timeframe) key: the fields of one
entry of the `timeframes` map (src/getprices.js lines 17-43), that key's
`isSaving` flag (line 45), and the parsed records of its `.jsonl` file
(one candle per appended line). -/
structure Frame where
  interval : Int
  current : Option Candle
  lastClose : Option ℚ
  lastFinalized : Option Int
  file : List Candle
  isSaving : Bool
  deriving DecidableEq, Repr

/-- A per-asset `{min, max}` price bound (src/getprices.js lines 7-11). -/
structure Bounds where
  min : ℚ
  max : ℚ
  deriving DecidableEq, Repr

/-- The configured bound for Solana (line 8). -/
def solana : Bounds := ⟨50, 500⟩

/-- The configured bound for Ethereum (line 9). -/
def ethereum : Bounds := ⟨1000, 10000⟩

/-- The configured bound for Bitcoin (line 10). -/
def bitcoin : Bounds := ⟨30000, 150000⟩

/-- Function `getIntervalStart` (lines 52-54):
`Math.floor(timestamp.getTime() / intervalMs) * intervalMs`. -/
def getIntervalStart (t intervalMs : Int) : Int :=
  (Int.fdiv t intervalMs) * intervalMs

/-- The price formatting `parseFloat(price.toFixed(2))` (line 127):
round half up to two decimal places. -/
def round2 (p : ℚ) : ℚ :=
  ((⌊p * 100 + 1 / 2⌋ : ℤ) : ℚ) / 100

/-- Function `saveOhlcData` (lines 95-118) acting on one frame.  If a
save for the key is already in flight, return at once (lines 98-101).
Otherwise attempt the append; `ok` is its outcome: on success the record
is appended and `lastClose` / `lastFinalized` are updated (lines
108-110), on failure the error is caught and logged and nothing changes
(lines 112-114).  The `finally` reset of the flag (line 116) restores
the entry value taken at line 103, so the flag field is unchanged. -/
def saveOhlcData (candle : Candle) (ok : Bool) (fr : Frame) : Frame :=
  if fr.isSaving then fr
  else if ok then
    { fr with file := fr.file ++ [candle],
              lastClose := some candle.close,
              lastFinalized := some candle.timestamp }
  else fr

/-- Lines 172-190: apply the formatted price to the current candle.  The
code mutates only when the price differs from `close`; then `high` is
raised, `low` is lowered, and `close` is overwritten. -/
def applyTick (p : ℚ) (c : Candle) : Candle :=
  if p ≠ c.close then
    { c with high := if p > c.high then p else c.high,
             low := if p < c.low then p else c.low,
             close := p }
  else c

/-- A fresh candle with every price field equal to the chosen opening
price (lines 150-156 and 161-167). -/
def newCandle (ts : Int) (p : ℚ) : Candle :=
  { timestamp := ts, open_ := p, high := p, low := p, close := p }

/-- Apply the formatted price to the frame's current candle (lines
172-190); nothing happens if there is none (unreachable after lines
142-170). -/
def applyToCurrent (p : ℚ) (fr : Frame) : Frame :=
  match fr.current with
  | some c => { fr with current := some (applyTick p c) }
  | none => fr

/-- The body of `updateOhlc`'s per-timeframe loop (lines 137-191) for
one frame: `p` is the already-formatted price, `t` the tick instant,
`ok` the outcome of the `appendFile` issued by the finalize path, if
that path runs.  Returns the new frame and the candles handed to
`finalizeOhlc`/`saveOhlcData` during the step. -/
def updateFrame (p : ℚ) (t : Int) (ok : Bool) (fr : Frame) : Frame × List Candle :=
  let bucket := getIntervalStart t fr.interval
  match fr.current with
  | none =>
      let prevClose := fr.lastClose.getD p
      (applyToCurrent p { fr with current := some (newCandle bucket prevClose) }, [])
  | some cur =>
      if cur.timestamp ≠ bucket ∧ fr.lastFinalized ≠ some cur.timestamp then
        let fr1 := saveOhlcData cur ok { fr with current := none }
        (applyToCurrent p { fr1 with current := some (newCandle bucket cur.close) }, [cur])
      else
        (applyToCurrent p fr, [])

/-- The loop of lines 137-191 over all of an asset's frames; `oks` lists
each frame's append outcome. -/
def updateFrames (fp : ℚ) (t : Int) (oks : List Bool) (frames : List Frame) :
    List Frame × List Candle :=
  let results := (frames.zip oks).map fun fo => updateFrame fp t fo.2 fo.1
  (results.map Prod.fst, (results.map Prod.snd).flatten)

/-- Function `updateOhlc` (lines 126-192): format the price, validate it
against the asset's bound (line 131, dropping the tick when the
formatted price is below `min` or above `max`), then update every
timeframe. -/
def updateOhlc (b : Bounds) (price : ℚ) (t : Int) (oks : List Bool)
    (frames : List Frame) : List Frame × List Candle :=
  let fp := round2 price
  if fp < b.min ∨ fp > b.max then (frames, [])
  else updateFrames fp t oks frames

/-- One frame's share of the SIGINT handler (lines 311-318): if a
current candle exists and its bucket is not the last finalized one,
finalize it (hand it to `saveOhlcData`, lines 199-205) and clear it. -/
def shutdownFrame (ok : Bool) (fr : Frame) : Frame × List Candle :=
  match fr.current with
  | some cur =>
      if fr.lastFinalized ≠ some cur.timestamp then
        ({ saveOhlcData cur ok fr with current := none }, [cur])
      else (fr, [])
  | none => (fr, [])

/-- The SIGINT handler (lines 308-320): drain every frame in turn, then
`process.exit(0)` (line 319).  Returns the frames after the drain, the
candles handed to persistence during the drain, and the process exit
code. -/
def sigintHandler (oks : List Bool) (frames : List Frame) :
    List Frame × List Candle × Nat :=
  let results := (frames.zip oks).map fun fo => shutdownFrame fo.2 fo.1
  (results.map Prod.fst, ((results.map Prod.snd).flatten, 0))

/-- Function `loadOhlcData` (lines 59-88) for one frame: recover
`lastClose` and `lastFinalized` from the last record of the frame's file
(lines 68-74; both stay `null` when the file is absent or empty) and
initialize the `isSaving` flag to `false` (line 85). -/
def initFrame (w : Int) (hist : List Candle) : Frame :=
  { interval := w, current := none,
    lastClose := hist.getLast?.map Candle.close,
    lastFinalized := hist.getLast?.map Candle.timestamp,
    file := hist, isSaving := false }

/-- The frame states the program can reach for one (asset, timeframe)
key: a recovered startup state followed by any interleaving of tick
updates and shutdown drains. -/
inductive Reach (w : Int) : Frame → Prop
  | init (hist : List Candle) : Reach w (initFrame w hist)
  | tick (p : ℚ) (t : Int) (ok : Bool) {fr : Frame} :
      Reach w fr → Reach w (updateFrame p t ok fr).1
  | drain (ok : Bool) {fr : Frame} :
      Reach w fr → Reach w (shutdownFrame ok fr).1

/-- The candle invariant of the data model: `low ≤ min(open, close)` and
`max(open, close) ≤ high`. -/
def candleOkb (c : Candle) : Bool :=
  decide (c.low ≤ min c.open_ c.close) && decide (max c.open_ c.close ≤ c.high)

/-- A frame's current candle, when present, satisfies the candle
invariant. -/
def frameInvb (fr : Frame) : Bool :=
  fr.current.all candleOkb

/-- The recovery metadata matches the durable store: `lastClose` and
`lastFinalized` are the `close` and `timestamp` of the file's last
record (or `none` for an empty file). -/
def metaInvb (fr : Frame) : Bool :=
  decide (fr.lastClose = fr.file.getLast?.map Candle.close) &&
  decide (fr.lastFinalized = fr.file.getLast?.map Candle.timestamp)

/-- A candle recovered from a previous run: bucket start 0, all price
fields 100. -/
def candleT0 : Candle := ⟨0, 100, 100, 100, 100⟩

/-- A startup state recovered from a one-record store (1m timeframe). -/
def frRecovered : Frame := initFrame 60000 [candleT0]

/-- `frRecovered` after one in-range tick (price 101) that lands in the
same bucket as the recovered `lastFinalized` record. -/
def frSameBucket : Frame := (updateFrame 101 30000 true frRecovered).1

/-- A cold-started 1m frame after one in-range tick at price 101. -/
def frDrain : Frame := (updateFrame 101 30000 true (initFrame 60000 [])).1

/-! ### Small step lemmas about `saveOhlcData`, `applyTick` and the
candle invariant -/

theorem saveOhlcData_current (candle : Candle) (ok : Bool) (fr : Frame) :
    (saveOhlcData candle ok fr).current = fr.current := by
  unfold saveOhlcData; split_ifs <;> rfl

theorem saveOhlcData_interval (candle : Candle) (ok : Bool) (fr : Frame) :
    (saveOhlcData candle ok fr).interval = fr.interval := by
  unfold saveOhlcData; split_ifs <;> rfl

theorem saveOhlcData_isSaving (candle : Candle) (ok : Bool) (fr : Frame) :
    (saveOhlcData candle ok fr).isSaving = fr.isSaving := by
  unfold saveOhlcData; split_ifs <;> rfl

theorem saveOhlcData_false (candle : Candle) (fr : Frame) :
    saveOhlcData candle false fr = fr := by
  unfold saveOhlcData; split_ifs <;> simp_all

theorem saveOhlcData_true (candle : Candle) (fr : Frame) (h : fr.isSaving = false) :
    saveOhlcData candle true fr =
      { fr with file := fr.file ++ [candle],
                lastClose := some candle.close,
                lastFinalized := some candle.timestamp } := by
  simp [saveOhlcData, h]

theorem applyTick_open (p : ℚ) (c : Candle) : (applyTick p c).open_ = c.open_ := by
  unfold applyTick; split_ifs <;> rfl

theorem applyTick_timestamp (p : ℚ) (c : Candle) :
    (applyTick p c).timestamp = c.timestamp := by
  unfold applyTick; split_ifs <;> rfl

theorem applyTick_newCandle (ts : Int) (p : ℚ) :
    applyTick p (newCandle ts p) = newCandle ts p := by
  simp [applyTick, newCandle]

theorem candleOkb_newCandle (ts : Int) (p : ℚ) :
    candleOkb (newCandle ts p) = true := by
  simp [candleOkb, newCandle]

theorem candleOkb_applyTick {c : Candle} (p : ℚ) (h : candleOkb c = true) :
    candleOkb (applyTick p c) = true := by
  obtain ⟨ts, o, hi, lo, cl⟩ := c
  simp only [candleOkb, applyTick, Bool.and_eq_true, decide_eq_true_eq,
    le_min_iff, max_le_iff] at h ⊢
  obtain ⟨⟨h1, h2⟩, h3, h4⟩ := h
  split_ifs <;>
    exact ⟨⟨by linarith, by linarith⟩, by linarith, by linarith⟩

/-! ### Characterizations of the three paths of `updateFrame` and of
`shutdownFrame` -/

theorem updateFrame_none {fr : Frame} (p : ℚ) (t : Int) (ok : Bool)
    (h : fr.current = none) :
    updateFrame p t ok fr =
      ({ fr with current := some (applyTick p
          (newCandle (getIntervalStart t fr.interval) (fr.lastClose.getD p))) }, []) := by
  simp [updateFrame, applyToCurrent, h]

theorem updateFrame_roll {fr : Frame} {c : Candle} (p : ℚ) (t : Int) (ok : Bool)
    (hc : fr.current = some c)
    (hb : c.timestamp ≠ getIntervalStart t fr.interval)
    (hl : fr.lastFinalized ≠ some c.timestamp) :
    updateFrame p t ok fr =
      ({ saveOhlcData c ok { fr with current := none } with
          current := some (applyTick p
            (newCandle (getIntervalStart t fr.interval) c.close)) }, [c]) := by
  simp [updateFrame, applyToCurrent, hc, hb, hl]

theorem updateFrame_stay {fr : Frame} {c : Candle} (p : ℚ) (t : Int) (ok : Bool)
    (hc : fr.current = some c)
    (hcond : c.timestamp = getIntervalStart t fr.interval ∨
             fr.lastFinalized = some c.timestamp) :
    updateFrame p t ok fr = ({ fr with current := some (applyTick p c) }, []) := by
  have hnot : ¬(c.timestamp ≠ getIntervalStart t fr.interval ∧
      fr.lastFinalized ≠ some c.timestamp) := by
    rcases hcond with h | h
    · exact fun hx => hx.1 h
    · exact fun hx => hx.2 h
  simp [updateFrame, applyToCurrent, hc, hnot]

theorem shutdownFrame_none {fr : Frame} (ok : Bool) (h : fr.current = none) :
    shutdownFrame ok fr = (fr, []) := by
  simp [shutdownFrame, h]

theorem shutdownFrame_skip {fr : Frame} {c : Candle} (ok : Bool)
    (hc : fr.current = some c) (hl : fr.lastFinalized = some c.timestamp) :
    shutdownFrame ok fr = (fr, []) := by
  simp [shutdownFrame, hc, hl]

theorem shutdownFrame_go {fr : Frame} {c : Candle} (ok : Bool)
    (hc : fr.current = some c) (hl : fr.lastFinalized ≠ some c.timestamp) :
    shutdownFrame ok fr = ({ saveOhlcData c ok fr with current := none }, [c]) := by
  simp [shutdownFrame, hc, hl]

/-! ### Preservation of the save flag and of the recovery metadata -/

theorem metaInvb_save (candle : Candle) (ok : Bool) {fr : Frame}
    (h : metaInvb fr = true) : metaInvb (saveOhlcData candle ok fr) = true := by
  unfold saveOhlcData
  split_ifs with h1 h2
  · exact h
  · simp [metaInvb, List.getLast?_concat]
  · exact h

theorem updateFrame_isSaving (p : ℚ) (t : Int) (ok : Bool) (fr : Frame) :
    (updateFrame p t ok fr).1.isSaving = fr.isSaving := by
  cases hc : fr.current with
  | none => rw [updateFrame_none p t ok hc]
  | some c =>
      by_cases hb : c.timestamp = getIntervalStart t fr.interval
      · rw [updateFrame_stay p t ok hc (Or.inl hb)]
      · by_cases hl : fr.lastFinalized = some c.timestamp
        · rw [updateFrame_stay p t ok hc (Or.inr hl)]
        · rw [updateFrame_roll p t ok hc hb hl]
          exact saveOhlcData_isSaving c ok { fr with current := none }

theorem updateFrame_metaInv (p : ℚ) (t : Int) (ok : Bool) {fr : Frame}
    (h : metaInvb fr = true) : metaInvb (updateFrame p t ok fr).1 = true := by
  cases hc : fr.current with
  | none => rw [updateFrame_none p t ok hc]; exact h
  | some c =>
      by_cases hb : c.timestamp = getIntervalStart t fr.interval
      · rw [updateFrame_stay p t ok hc (Or.inl hb)]; exact h
      · by_cases hl : fr.lastFinalized = some c.timestamp
        · rw [updateFrame_stay p t ok hc (Or.inr hl)]; exact h
        · rw [updateFrame_roll p t ok hc hb hl]
          exact @metaInvb_save c ok { fr with current := none } h

theorem shutdownFrame_isSaving (ok : Bool) (fr : Frame) :
    (shutdownFrame ok fr).1.isSaving = fr.isSaving := by
  cases hc : fr.current with
  | none => rw [shutdownFrame_none ok hc]
  | some c =>
      by_cases hl : fr.lastFinalized = some c.timestamp
      · rw [shutdownFrame_skip ok hc hl]
      · rw [shutdownFrame_go ok hc hl]
        exact saveOhlcData_isSaving c ok fr

theorem shutdownFrame_metaInv (ok : Bool) {fr : Frame} (h : metaInvb fr = true) :
    metaInvb (shutdownFrame ok fr).1 = true := by
  cases hc : fr.current with
  | none => rw [shutdownFrame_none ok hc]; exact h
  | some c =>
      by_cases hl : fr.lastFinalized = some c.timestamp
      · rw [shutdownFrame_skip ok hc hl]; exact h
      · rw [shutdownFrame_go ok hc hl]
        exact metaInvb_save c ok h

/-- Every reachable frame has its `isSaving` flag clear (the sequential
trace is quiescent between steps) and its recovery metadata equal to the
last successfully persisted record. -/
theorem reach_isSaving_metaInv {w : Int} {fr : Frame} (h : Reach w fr) :
    fr.isSaving = false ∧ metaInvb fr = true := by
  induction h with
  | init hist => exact ⟨rfl, by simp [metaInvb, initFrame]⟩
  | tick p t ok hr ih =>
      exact ⟨(updateFrame_isSaving p t ok _).trans ih.1,
             updateFrame_metaInv p t ok ih.2⟩
  | drain ok hr ih =>
      exact ⟨(shutdownFrame_isSaving ok _).trans ih.1,
             shutdownFrame_metaInv ok ih.2⟩

/-- Preservation of the candle invariant by one `updateFrame` step, for
the frame and for every candle handed to persistence. -/
theorem updateFrame_inv (p : ℚ) (t : Int) (ok : Bool) {fr : Frame}
    (h : frameInvb fr = true) :
    frameInvb (updateFrame p t ok fr).1 = true ∧
    (updateFrame p t ok fr).2.all candleOkb = true := by
  cases hc : fr.current with
  | none =>
      rw [updateFrame_none p t ok hc]
      exact ⟨by simpa [frameInvb, Option.all] using
        candleOkb_applyTick p (candleOkb_newCandle _ _), rfl⟩
  | some c =>
      have hcok : candleOkb c = true := by
        simpa [frameInvb, hc, Option.all] using h
      by_cases hb : c.timestamp = getIntervalStart t fr.interval
      · rw [updateFrame_stay p t ok hc (Or.inl hb)]
        exact ⟨by simpa [frameInvb, Option.all] using
          candleOkb_applyTick p hcok, rfl⟩
      · by_cases hl : fr.lastFinalized = some c.timestamp
        · rw [updateFrame_stay p t ok hc (Or.inr hl)]
          exact ⟨by simpa [frameInvb, Option.all] using
            candleOkb_applyTick p hcok, rfl⟩
        · rw [updateFrame_roll p t ok hc hb hl]
          refine ⟨by simpa [frameInvb, Option.all] using
            candleOkb_applyTick p (candleOkb_newCandle _ _), ?_⟩
          simp [hcok]

/-- A concrete frame whose key has a persist in flight. -/
def frInflight : Frame :=
  { interval := 60000, current := some candleT0, lastClose := some 100,
    lastFinalized := some 0, file := [candleT0], isSaving := true }

/-! ### The claims -/

/-- C1, counterexample to the claim as stated: after a restart whose
first tick lands in the bucket of the recovered `lastFinalized`
(reachable state `frSameBucket`), a later tick whose bucket (60000)
differs from `current.timestamp` (0) finalizes nothing — the handoff
list is empty — and no new candle is created: the guard at line 142 of
src/getprices.js also requires `lastFinalized ≠ current.timestamp`. -/
theorem c1_boundary_counterexample :
    Reach 60000 frSameBucket ∧
    frSameBucket.current = some (Candle.mk 0 100 101 100 101) ∧
    getIntervalStart 70000 frSameBucket.interval ≠
      (Candle.mk 0 100 101 100 101).timestamp ∧
    (updateFrame 102 70000 true frSameBucket).2 = [] ∧
    (updateFrame 102 70000 true frSameBucket).1.current =
      some (Candle.mk 0 100 102 100 102) :=
  ⟨Reach.tick 101 30000 true (Reach.init [candleT0]),
   by decide, by decide, by decide, by decide⟩

/-- C1 (amended: additionally `lastFinalized ≠ current.timestamp`): in a
reachable state with a current candle, a validated tick whose bucket
differs from `current.timestamp` — when the current bucket is not the
last finalized one — hands the current candle to persistence exactly
once and starts a new current candle whose `open` equals the finalized
candle's `close`; on a successful append the candle is written exactly
once. -/
theorem c1_boundary_carry_forward (w : Int) (fr : Frame) (c : Candle)
    (p : ℚ) (t : Int) (ok : Bool)
    (hr : Reach w fr) (hc : fr.current = some c)
    (hb : getIntervalStart t fr.interval ≠ c.timestamp)
    (hl : fr.lastFinalized ≠ some c.timestamp) :
    (updateFrame p t ok fr).2 = [c] ∧
    (updateFrame p t ok fr).1.current =
      some (applyTick p (newCandle (getIntervalStart t fr.interval) c.close)) ∧
    ((updateFrame p t ok fr).1.current.map Candle.open_) = some c.close ∧
    (updateFrame p t true fr).1.file = fr.file ++ [c] := by
  have hs := (reach_isSaving_metaInv hr).1
  rw [updateFrame_roll p t ok hc (Ne.symm hb) hl,
      updateFrame_roll p t true hc (Ne.symm hb) hl]
  refine ⟨rfl, rfl, ?_, ?_⟩
  · simp [applyTick_open, newCandle]
  · rw [saveOhlcData_true c { fr with current := none } hs]

/-- Witness for C1 at the reachable state `frDrain` and the tick
(price 102, instant 70000). -/
theorem c1_boundary_carry_forward_witness :
    (updateFrame 102 70000 true frDrain).2 = [Candle.mk 0 101 101 101 101] ∧
    (updateFrame 102 70000 true frDrain).1.current =
      some (applyTick 102 (newCandle (getIntervalStart 70000 frDrain.interval)
        (Candle.mk 0 101 101 101 101).close)) ∧
    ((updateFrame 102 70000 true frDrain).1.current.map Candle.open_) =
      some (Candle.mk 0 101 101 101 101).close ∧
    (updateFrame 102 70000 true frDrain).1.file =
      frDrain.file ++ [Candle.mk 0 101 101 101 101] :=
  c1_boundary_carry_forward 60000 frDrain (Candle.mk 0 101 101 101 101)
    102 70000 true (Reach.tick 101 30000 true (Reach.init []))
    (by decide) (by decide) (by decide)

/-- C2, counterexample to the claim as stated: a drain in which the one
attempted persist fails (the candle is handed off, yet the file stays
empty and `lastFinalized` stays `none`) still exits with code 0 — the
handler ends in `process.exit(0)` (line 319) and `saveOhlcData` catches
append errors (lines 112-114). -/
theorem c2_exit_code_counterexample :
    (sigintHandler [false] [frDrain]).2.1 = [Candle.mk 0 101 101 101 101] ∧
    ((sigintHandler [false] [frDrain]).1.map Frame.file) = [[]] ∧
    ((sigintHandler [false] [frDrain]).1.map Frame.lastFinalized) = [none] ∧
    (sigintHandler [false] [frDrain]).2.2 = 0 :=
  ⟨by decide, by decide, by decide, rfl⟩

/-- C2 (amended): after the shutdown drain completes the process exits
with code 0 unconditionally — also when persists during the drain
failed; append failures are caught and logged inside `saveOhlcData` and
never reach the exit code. -/
theorem c2_exit_code_zero (oks : List Bool) (frames : List Frame) :
    (sigintHandler oks frames).2.2 = 0 := rfl

/-- C3, counterexample to the claim as stated: in the reachable state
`frSameBucket` the current candle is non-absent, yet the shutdown
handler persists nothing and leaves the candle in place, because its
bucket equals the recovered `lastFinalized` (guard at line 313). -/
theorem c3_shutdown_counterexample :
    Reach 60000 frSameBucket ∧
    frSameBucket.current = some (Candle.mk 0 100 101 100 101) ∧
    shutdownFrame true frSameBucket = (frSameBucket, []) :=
  ⟨Reach.tick 101 30000 true (Reach.init [candleT0]), by decide, by decide⟩

/-- C3 (amended: additionally `current.timestamp ≠ lastFinalized`): on a
termination request, a reachable frame with a non-absent current candle
whose bucket is not the last finalized one is finalized and handed to
persistence exactly once and cleared; on a successful append the candle
is written exactly once with the metadata updated, and the handler
returns its exit code only after the drain. -/
theorem c3_shutdown_drain (w : Int) (fr : Frame) (c : Candle) (ok : Bool)
    (hr : Reach w fr) (hc : fr.current = some c)
    (hl : fr.lastFinalized ≠ some c.timestamp) :
    (shutdownFrame ok fr).2 = [c] ∧
    (shutdownFrame ok fr).1.current = none ∧
    (shutdownFrame true fr).1.file = fr.file ++ [c] ∧
    (shutdownFrame true fr).1.lastClose = some c.close ∧
    (shutdownFrame true fr).1.lastFinalized = some c.timestamp ∧
    sigintHandler [ok] [fr] = ([(shutdownFrame ok fr).1], ([c], 0)) := by
  have hs := (reach_isSaving_metaInv hr).1
  rw [shutdownFrame_go ok hc hl, shutdownFrame_go true hc hl,
      saveOhlcData_true c fr hs]
  refine ⟨rfl, rfl, rfl, rfl, rfl, ?_⟩
  simp [sigintHandler, shutdownFrame_go ok hc hl, saveOhlcData_true c fr hs]

/-- Witness for C3 at the reachable state `frDrain`. -/
theorem c3_shutdown_drain_witness :
    (shutdownFrame true frDrain).2 = [Candle.mk 0 101 101 101 101] ∧
    (shutdownFrame true frDrain).1.current = none ∧
    (shutdownFrame true frDrain).1.file =
      frDrain.file ++ [Candle.mk 0 101 101 101 101] ∧
    (shutdownFrame true frDrain).1.lastClose =
      some (Candle.mk 0 101 101 101 101).close ∧
    (shutdownFrame true frDrain).1.lastFinalized =
      some (Candle.mk 0 101 101 101 101).timestamp ∧
    sigintHandler [true] [frDrain] =
      ([(shutdownFrame true frDrain).1], ([Candle.mk 0 101 101 101 101], 0)) :=
  c3_shutdown_drain 60000 frDrain (Candle.mk 0 101 101 101 101) true
    (Reach.tick 101 30000 true (Reach.init [])) (by decide) (by decide)

/-- C4: a persist call made while another persist for the same key is
in flight (its `isSaving` flag set) returns immediately as a no-op: the
whole frame — file, `lastClose`, `lastFinalized`, current candle — is
unchanged, and nothing is queued or retried (lines 98-101). -/
theorem c4_persist_inflight_noop (fr : Frame) (candle : Candle) (ok : Bool)
    (h : fr.isSaving = true) :
    saveOhlcData candle ok fr = fr := by
  simp [saveOhlcData, h]

/-- Witness for C4 at a concrete in-flight state. -/
theorem c4_persist_inflight_noop_witness :
    saveOhlcData candleT0 true frInflight = frInflight :=
  c4_persist_inflight_noop frInflight candleT0 true rfl

/-- C5: every candle produced by an `updateOhlc` step — the current
candle of every frame and every candle handed to persistence — satisfies
`low ≤ min(open, close)` and `max(open, close) ≤ high`, and the
invariant is preserved by every step. -/
theorem c5_candle_invariant (b : Bounds) (price : ℚ) (t : Int)
    (oks : List Bool) (frames : List Frame)
    (h : frames.all frameInvb = true) :
    (updateOhlc b price t oks frames).1.all frameInvb = true ∧
    (updateOhlc b price t oks frames).2.all candleOkb = true := by
  simp only [updateOhlc]
  split_ifs with hv
  · exact ⟨h, rfl⟩
  · simp only [updateFrames]
    rw [List.all_eq_true] at h
    constructor
    · rw [List.all_eq_true]
      intro fr2 hfr2
      simp only [List.mem_map] at hfr2
      obtain ⟨b2, ⟨fo, hmem, rfl⟩, rfl⟩ := hfr2
      exact (updateFrame_inv (round2 price) t fo.2
        (h fo.1 (List.of_mem_zip hmem).1)).1
    · rw [List.all_eq_true]
      intro cdl hcdl
      simp only [List.mem_flatten, List.mem_map] at hcdl
      obtain ⟨l, ⟨b2, ⟨fo, hmem, rfl⟩, rfl⟩, hcl⟩ := hcdl
      have hall := (updateFrame_inv (round2 price) t fo.2
        (h fo.1 (List.of_mem_zip hmem).1)).2
      rw [List.all_eq_true] at hall
      exact hall _ hcl

/-- Witness for C5 at a concrete state and tick. -/
theorem c5_candle_invariant_witness :
    (updateOhlc solana 100 30000 [true] [frRecovered]).1.all frameInvb = true ∧
    (updateOhlc solana 100 30000 [true] [frRecovered]).2.all candleOkb = true :=
  c5_candle_invariant solana 100 30000 [true] [frRecovered] (by decide)

/-- C6: when a validated tick (formatted price `p`) arrives and no
current candle exists, the new candle opens at `lastClose` when one was
recovered or previously persisted, and at the tick's own price
otherwise; its timestamp is the tick's bucket start, nothing is handed
to persistence, and in the cold-start case (`lastClose` absent) the
candle is created with `open = high = low = close = p`. -/
theorem c6_open_price_choice (fr : Frame) (p : ℚ) (t : Int) (ok : Bool)
    (h : fr.current = none) :
    ((updateFrame p t ok fr).1.current.map Candle.open_) =
      some (fr.lastClose.getD p) ∧
    ((updateFrame p t ok fr).1.current.map Candle.timestamp) =
      some (getIntervalStart t fr.interval) ∧
    (updateFrame p t ok fr).2 = [] ∧
    (updateFrame p t ok { fr with lastClose := none }).1.current =
      some { timestamp := getIntervalStart t fr.interval,
             open_ := p, high := p, low := p, close := p } := by
  rw [updateFrame_none p t ok h,
      updateFrame_none p t ok
        (show ({ fr with lastClose := none } : Frame).current = none from h)]
  refine ⟨?_, ?_, rfl, ?_⟩
  · simp [applyTick_open, newCandle]
  · simp [applyTick_timestamp, newCandle]
  · simp [applyTick, newCandle]

/-- Witness for C6 at the recovered state `frRecovered` (whose
`lastClose` is 100) and a cold-start variant of it. -/
theorem c6_open_price_choice_witness :
    ((updateFrame 101 30000 true frRecovered).1.current.map Candle.open_) =
      some (frRecovered.lastClose.getD 101) ∧
    ((updateFrame 101 30000 true frRecovered).1.current.map Candle.timestamp) =
      some (getIntervalStart 30000 frRecovered.interval) ∧
    (updateFrame 101 30000 true frRecovered).2 = [] ∧
    (updateFrame 101 30000 true { frRecovered with lastClose := none }).1.current =
      some { timestamp := getIntervalStart 30000 frRecovered.interval,
             open_ := 101, high := 101, low := 101, close := 101 } :=
  c6_open_price_choice frRecovered 101 30000 true rfl

/-- C7, counterexample to the claim as stated: the raw price 500.004
lies strictly outside Solana's inclusive bound [50, 500], yet the tick
is not dropped — it is accepted (after rounding to 500.00) and creates a
candle — because validation happens after rounding (line 127 before
line 131). -/
theorem c7_validation_counterexample :
    (500 + 4 / 1000 : ℚ) > solana.max ∧
    (updateOhlc solana (500 + 4 / 1000) 30000 [true] [initFrame 60000 []]).1.map
        Frame.current = [some (Candle.mk 0 500 500 500 500)] := by
  constructor
  · norm_num [solana]
  · have hr : round2 (500 + 4 / 1000) = 500 := by norm_num [round2]
    simp only [updateOhlc, hr]
    rw [if_neg (by norm_num [solana])]
    decide

/-- C7 (amended: the bound is checked against the price after rounding
to 2 decimal places): a tick whose formatted price lies outside the
inclusive per-asset bound is dropped with no state mutation and nothing
persisted; formatted prices exactly equal to the configured `min` or
`max` are accepted and processed. -/
theorem c7_validation_bounds (b : Bounds) (price : ℚ) (t : Int)
    (oks : List Bool) (frames : List Frame)
    (h : round2 price < b.min ∨ round2 price > b.max) :
    updateOhlc b price t oks frames = (frames, []) ∧
    updateOhlc solana 50 t oks frames = updateFrames 50 t oks frames ∧
    updateOhlc solana 500 t oks frames = updateFrames 500 t oks frames ∧
    updateOhlc bitcoin 30000 t oks frames = updateFrames 30000 t oks frames ∧
    updateOhlc bitcoin 150000 t oks frames = updateFrames 150000 t oks frames := by
  have h50 : round2 50 = 50 := by norm_num [round2]
  have h500 : round2 500 = 500 := by norm_num [round2]
  have h30k : round2 30000 = 30000 := by norm_num [round2]
  have h150k : round2 150000 = 150000 := by norm_num [round2]
  refine ⟨?_, ?_, ?_, ?_, ?_⟩
  · simp only [updateOhlc]; rw [if_pos h]
  · simp only [updateOhlc, h50]; rw [if_neg (by norm_num [solana])]
  · simp only [updateOhlc, h500]; rw [if_neg (by norm_num [solana])]
  · simp only [updateOhlc, h30k]; rw [if_neg (by norm_num [bitcoin])]
  · simp only [updateOhlc, h150k]; rw [if_neg (by norm_num [bitcoin])]

/-- Witness for C7: the spec's own example, price 600 against the bound
[50, 500], is rejected with no state change. -/
theorem c7_validation_bounds_witness :
    updateOhlc solana 600 30000 [true] [frRecovered] = ([frRecovered], []) ∧
    updateOhlc solana 50 30000 [true] [frRecovered] =
      updateFrames 50 30000 [true] [frRecovered] ∧
    updateOhlc solana 500 30000 [true] [frRecovered] =
      updateFrames 500 30000 [true] [frRecovered] ∧
    updateOhlc bitcoin 30000 30000 [true] [frRecovered] =
      updateFrames 30000 30000 [true] [frRecovered] ∧
    updateOhlc bitcoin 150000 30000 [true] [frRecovered] =
      updateFrames 150000 30000 [true] [frRecovered] :=
  c7_validation_bounds solana 600 30000 [true] [frRecovered]
    (Or.inr (by norm_num [round2, solana]))

/-- C8: a validated tick whose bucket equals `current.timestamp` leaves
`current.open` (and the timestamp) unchanged — only `high`, `low` and
`close` may change, via `applyTick` — and finalizes nothing, touching
neither the file nor the recovery metadata. -/
theorem c8_open_immutable (fr : Frame) (c : Candle) (p : ℚ) (t : Int)
    (ok : Bool) (hc : fr.current = some c)
    (hb : c.timestamp = getIntervalStart t fr.interval) :
    (updateFrame p t ok fr).1.current = some (applyTick p c) ∧
    (applyTick p c).open_ = c.open_ ∧
    (applyTick p c).timestamp = c.timestamp ∧
    (updateFrame p t ok fr).2 = [] ∧
    (updateFrame p t ok fr).1.lastClose = fr.lastClose ∧
    (updateFrame p t ok fr).1.lastFinalized = fr.lastFinalized ∧
    (updateFrame p t ok fr).1.file = fr.file := by
  rw [updateFrame_stay p t ok hc (Or.inl hb)]
  exact ⟨rfl, applyTick_open p c, applyTick_timestamp p c, rfl, rfl, rfl, rfl⟩

/-- Witness for C8 at the state `frSameBucket` and a same-bucket tick
at price 102. -/
theorem c8_open_immutable_witness :
    (updateFrame 102 30000 true frSameBucket).1.current =
      some (applyTick 102 (Candle.mk 0 100 101 100 101)) ∧
    (applyTick 102 (Candle.mk 0 100 101 100 101)).open_ =
      (Candle.mk 0 100 101 100 101).open_ ∧
    (applyTick 102 (Candle.mk 0 100 101 100 101)).timestamp =
      (Candle.mk 0 100 101 100 101).timestamp ∧
    (updateFrame 102 30000 true frSameBucket).2 = [] ∧
    (updateFrame 102 30000 true frSameBucket).1.lastClose =
      frSameBucket.lastClose ∧
    (updateFrame 102 30000 true frSameBucket).1.lastFinalized =
      frSameBucket.lastFinalized ∧
    (updateFrame 102 30000 true frSameBucket).1.file = frSameBucket.file :=
  c8_open_immutable frSameBucket (Candle.mk 0 100 101 100 101) 102 30000 true
    (by decide) (by decide)

/-- C9: persistence is atomic with respect to its recovery metadata: a
failed append leaves `lastClose`, `lastFinalized` and the file
unchanged; a successful append (flag clear in every reachable state)
appends the record and updates them to the persisted candle's `close`
and `timestamp`; and in every reachable state the metadata equals the
last successfully persisted record's fields (or the values recovered at
startup). -/
theorem c9_persist_metadata (w : Int) (fr : Frame) (candle : Candle)
    (h : Reach w fr) :
    (saveOhlcData candle false fr).lastClose = fr.lastClose ∧
    (saveOhlcData candle false fr).lastFinalized = fr.lastFinalized ∧
    (saveOhlcData candle false fr).file = fr.file ∧
    (saveOhlcData candle true fr).lastClose = some candle.close ∧
    (saveOhlcData candle true fr).lastFinalized = some candle.timestamp ∧
    (saveOhlcData candle true fr).file = fr.file ++ [candle] ∧
    metaInvb fr = true := by
  obtain ⟨hs, hm⟩ := reach_isSaving_metaInv h
  rw [saveOhlcData_false, saveOhlcData_true candle fr hs]
  exact ⟨rfl, rfl, rfl, rfl, rfl, rfl, hm⟩

/-- Witness for C9 at the reachable recovered state `frRecovered`. -/
theorem c9_persist_metadata_witness :
    (saveOhlcData candleT0 false frRecovered).lastClose = frRecovered.lastClose ∧
    (saveOhlcData candleT0 false frRecovered).lastFinalized =
      frRecovered.lastFinalized ∧
    (saveOhlcData candleT0 false frRecovered).file = frRecovered.file ∧
    (saveOhlcData candleT0 true frRecovered).lastClose = some candleT0.close ∧
    (saveOhlcData candleT0 true frRecovered).lastFinalized =
      some candleT0.timestamp ∧
    (saveOhlcData candleT0 true frRecovered).file =
      frRecovered.file ++ [candleT0] ∧
    metaInvb frRecovered = true :=
  c9_persist_metadata 60000 frRecovered candleT0 (Reach.init [candleT0])

/-- C10: price-bound validation applies to the rounded price, not the
raw one: the raw price 500.004 is strictly above Solana's `max` of 500,
its rounding 500.00 passes the bound check, and the tick is accepted and
applied — it creates and updates a candle and drops nothing. -/
theorem c10_round_before_validate :
    (500 + 4 / 1000 : ℚ) > solana.max ∧
    round2 (500 + 4 / 1000) = 500 ∧
    ¬(round2 (500 + 4 / 1000) < solana.min ∨
      round2 (500 + 4 / 1000) > solana.max) ∧
    (updateOhlc solana (500 + 4 / 1000) 30000 [true] [initFrame 60000 []]).2 = [] ∧
    (updateOhlc solana (500 + 4 / 1000) 30000 [true] [initFrame 60000 []]).1 =
      [{ initFrame 60000 [] with
          current := some (Candle.mk 0 500 500 500 500) }] := by
  have hr : round2 (500 + 4 / 1000) = 500 := by norm_num [round2]
  refine ⟨by norm_num [solana], hr, by rw [hr]; norm_num [solana], ?_, ?_⟩
  · simp only [updateOhlc, hr]
    rw [if_neg (by norm_num [solana])]
    decide
  · simp only [updateOhlc, hr]
    rw [if_neg (by norm_num [solana])]
    decide

end GetPrices
